import Mathlib

/-!
Verification of the malware scanner-queue service against its
natural-language specification.

The Go sources are shallowly embedded: the MongoDB collection of skylink
records becomes a `List Skylink`, effectful collaborator calls (the clamav
scanner, the portal HEAD endpoint, the blocker service) become oracle
function arguments, and `time.Now()` becomes an explicit `now : Int`
parameter (seconds).  Every definition follows the corresponding Go
function line by line; deviations forced by the embedding are noted in
the doc comments.
-/

namespace ScannerQueue

/-! ## Data model (database/skylink.go)

The `Skylink` record, mirroring the `database.Skylink` struct: one entity
per content hash, holding the scanning state.  The 32-byte `crypto.Hash`
and the Mongo `ObjectID` are abstracted as `Nat`; `time.Time` is an `Int`
count of seconds whose zero value corresponds to Go's `time.Time{}.IsZero()`.
-/

structure Skylink where
  id : Nat
  hash : Nat
  skylink : String
  status : String
  infected : Bool
  infectionDescription : String
  scannedAllContent : Bool
  scannedAllOffsets : Bool
  size : Nat
  timestamp : Int
deriving DecidableEq, Repr

/-- Status of a skylink when it is created (`SkylinkStatusNew`). -/
def SkylinkStatusNew : String := "new"

/-- Status of a skylink while it is being scanned (`SkylinkStatusScanning`). -/
def SkylinkStatusScanning : String := "scanning"

/-- Status of a skylink after it is scanned (`SkylinkStatusComplete`). -/
def SkylinkStatusComplete : String := "complete"

/-- Modelled from the spec: the `unreported` status used by the reporter
loop.  The constant `database.SkylinkStatusUnreported` is referenced by
the scanner source but its declaration is not among the provided database
files; the spec's §3 status enum names it `unreported`. -/
def SkylinkStatusUnreported : String := "unreported"

/-- Scan timeout (`CancelScanAfter = time.Hour`), in seconds. -/
def CancelScanAfter : Int := 3600

/-! ## Queue store primitives (database/db.go) -/

/-- Filter of `CancelStuckScans`, exactly as the Go builds it:
`status = scanning` AND `timestamp $gt now - CancelScanAfter`.
Note `$gt`: the timestamp must be NEWER than one hour ago. -/
def stuckScanFilter (now : Int) (s : Skylink) : Bool :=
  (s.status == SkylinkStatusScanning) && decide (now - CancelScanAfter < s.timestamp)

/-- Embedding of `DB.CancelStuckScans`: `UpdateMany` with the filter above
and the update `$set status := new, timestamp := now`.  Returns the new
store and the `ModifiedCount` (every matching record changes its status
from `scanning`, so it is genuinely modified). -/
def CancelStuckScans (now : Int) (store : List Skylink) : List Skylink × Nat :=
  (store.map fun s =>
      if stuckScanFilter now s then { s with timestamp := now, status := SkylinkStatusNew } else s,
   (store.filter (stuckScanFilter now)).length)

/-- Result record of a MongoDB `UpdateOne` call without the upsert option:
`UpsertedCount` is zero and `UpsertedID` is absent whether or not a
document matched. -/
structure UpdateOneResult where
  store : List Skylink
  matchedCount : Nat
  modifiedCount : Nat
  upsertedCount : Nat
  upsertedID : Option Nat
deriving DecidableEq, Repr

/-- Apply `f` to the first element of the list satisfying `p`. -/
def applyFirst (p : Skylink → Bool) (f : Skylink → Skylink) : List Skylink → List Skylink
  | [] => []
  | s :: rest => if p s then f s :: rest else s :: applyFirst p f rest

/-- Embedding of `Collection.UpdateOne` (no upsert option): update the first
document matching the filter.  Since no upsert is requested,
`UpsertedCount = 0` and `UpsertedID = none` in every case. -/
def updateOne (p : Skylink → Bool) (f : Skylink → Skylink) (store : List Skylink) :
    UpdateOneResult :=
  match store.find? p with
  | some _ =>
      { store := applyFirst p f store, matchedCount := 1, modifiedCount := 1,
        upsertedCount := 0, upsertedID := none }
  | none =>
      { store := store, matchedCount := 0, modifiedCount := 0,
        upsertedCount := 0, upsertedID := none }

/-- Database errors surfaced by the store embedding. -/
inductive DBErr
  | noDocumentsFound
  | notFound
deriving DecidableEq, Repr

/-- Embedding of `DB.SkylinkByID`: `FindOne` on `_id`. -/
def SkylinkByID (store : List Skylink) (i : Nat) : Except DBErr Skylink :=
  match store.find? (fun s => s.id == i) with
  | some s => .ok s
  | none => .error .notFound

/-- Embedding of `DB.SweepAndLock`: `UpdateOne` with filter `status = new`
and update `$set timestamp := now, status := scanning`; then the Go checks
`ur.UpsertedCount == 0` and returns `ErrNoDocumentsFound` in that case,
otherwise fetches the record behind `ur.UpsertedID`. -/
def SweepAndLock (now : Int) (store : List Skylink) :
    List Skylink × Except DBErr Skylink :=
  let r := updateOne (fun s => s.status == SkylinkStatusNew)
      (fun s => { s with timestamp := now, status := SkylinkStatusScanning }) store
  if r.upsertedCount = 0 then
    (r.store, .error .noDocumentsFound)
  else
    match r.upsertedID with
    | some i => (r.store, SkylinkByID r.store i)
    | none => (r.store, .error .notFound)

/-! ## Scan worker loop scheduling (scanner/scanner.go, `Start`) -/

/-- Outcome of one `SweepAndScan` call as seen by the loop:
`idle` stands for `ErrNoDocumentsFound`, `err` for any other error. -/
inductive ScanOutcome
  | ok
  | idle
  | err
deriving DecidableEq, Repr

/-- Default sleep between scans (Standard profile, milliseconds). -/
def sleepBetweenScans : Nat := 10000

/-- Base step for sleeping after an error (milliseconds). -/
def sleepOnErrStep : Nat := 100

/-- Maximum number of times the sleep-on-error length is incremented. -/
def sleepOnErrSteps : Nat := 3

/-- One iteration of the scan loop body, exactly as the Go executes it.
`numSubsequentErrs := 0` is declared INSIDE the `for` body, so each
iteration starts from zero.  Returns the `sleepLength` that will be slept
before the next iteration and the value of `numSubsequentErrs` at the end
of the body (which the next iteration discards by re-declaring it). -/
def scanLoopIter (sleepLength : Nat) (outcome : ScanOutcome) : Nat × Nat :=
  let numSubsequentErrs := 0
  match outcome with
  | .idle => (sleepBetweenScans, 0)
  | .err =>
      let sl := sleepOnErrStep * 10 ^ numSubsequentErrs
      let n := numSubsequentErrs + 1
      (sl, if n > sleepOnErrSteps then sleepOnErrSteps else n)
  | .ok => (0, 0)

/-- Trace of the sleeps performed by the scan loop: given the current
`sleepLength` and the outcomes of the successive `SweepAndScan` calls,
the list of sleep durations taken before each following iteration. -/
def scanLoopSleeps (sleepLength : Nat) : List ScanOutcome → List Nat
  | [] => []
  | o :: os =>
      let r := scanLoopIter sleepLength o
      r.fst :: scanLoopSleeps r.fst os

/-! ## SweepAndScan (scanner/scanner.go) -/

/-- The four values the clamav scanner returns on a successful
`ScanSkylink` call: `(infected, description, size, scannedSize)`. -/
structure ScanVerdict where
  infected : Bool
  description : String
  size : Nat
  scannedSize : Nat
deriving DecidableEq, Repr

/-- Errors a `SweepAndScan` call can return. -/
inductive SweepErr
  | noDocumentsFound
  | dbError
  | emptySkylink
  | saveFailed
deriving DecidableEq, Repr

/-- Embedding of `Scanner.SweepAndScan` (the version with the reporter /
`unreported` status).  The effectful collaborator calls are passed in as
oracles: `lockRes` is what `DB.SweepAndLock` returned, `scan` is the
clamav `ScanSkylink` call, and `saveOk` tells whether `DB.SkylinkSave`
succeeds.  The first component of the result is the record handed to
`SkylinkSave` (if any); the second is the error `SweepAndScan` returns.
Note that in both save branches the Go re-assigns `err` to the result of
`SkylinkSave` before `return err`, so the returned error is the SAVE
error, not the scan error. -/
def SweepAndScan (now : Int) (lockRes : Except SweepErr Skylink)
    (scan : String → Except String ScanVerdict) (saveOk : Bool) :
    Option Skylink × Option SweepErr :=
  match lockRes with
  | .error e => (none, some e)
  | .ok sl =>
      if sl.skylink = "" then (none, some .emptySkylink)
      else
        match scan sl.skylink with
        | .error _ =>
            let sl2 := { sl with status := SkylinkStatusNew, timestamp := now }
            (some sl2, if saveOk then none else some .saveFailed)
        | .ok v =>
            let sl2 := { sl with
              status := if v.infected then SkylinkStatusUnreported else SkylinkStatusComplete,
              skylink := if v.infected then sl.skylink else "",
              infected := v.infected,
              infectionDescription := v.description,
              size := v.size,
              scannedAllContent := v.scannedSize == v.size,
              scannedAllOffsets := false,
              timestamp := now }
            (some sl2, if saveOk then none else some .saveFailed)

/-! ## SkylinkCreate and the POST handler (database/db.go, api/handlers.go) -/

/-- Embedding of `DB.SkylinkCreate`: first a `FindOne` on the hash — if a
record with this hash already exists the Go returns the error
`"skylink already exists"`; only when the hash is absent does it insert.
(The `E11000` duplicate-key squelch after the insert is unreachable in a
sequential model once the `FindOne` has reported the hash absent; it also
checks for an index named `skylink_unique` while the unique index created
by `ensureDBSchema` is `hash_unique`.) -/
def SkylinkCreate (store : List Skylink) (sl : Skylink) : List Skylink × Option String :=
  match store.find? (fun s => s.hash == sl.hash) with
  | some _ => (store, some "skylink already exists")
  | none => (store ++ [sl], none)

/-- Embedding of `API.ScanPOST`: the path parameter is parsed and
validated (`parseSkylink`, passed here as its result); a validation
failure answers 400, a `SkylinkCreate` error answers 500, success
answers 200. -/
def ScanPOST (parseResult : Except String Skylink) (store : List Skylink) :
    List Skylink × Nat :=
  match parseResult with
  | .error _ => (store, 400)
  | .ok sl =>
      match SkylinkCreate store sl with
      | (store2, some _) => (store2, 500)
      | (store2, none) => (store2, 200)

/-! ## Identifier resolver (database/skylink.go)

A parsed `skymodules.Skylink` is abstracted as its version number and its
merkle root; the portal's HEAD endpoint and the skyd string parser are
external collaborators and appear as oracle arguments. -/

/-- A parsed skyd skylink: its version and merkle root. -/
structure SkyId where
  version : Nat
  merkleRoot : Nat
deriving DecidableEq, Repr

/-- The `skynet-skylink` header of a portal HEAD response, after the Go
reads it with `Header.Get` and feeds it to `sl.LoadString`:
either the header is empty/absent, or it does not parse, or it parses to
a skylink. -/
inductive HeaderVal
  | missing
  | unparseable
  | parsed (sl : SkyId)
deriving DecidableEq, Repr

/-- Errors of the v2 resolution path. -/
inductive ResolveErr
  | nestedTooDeeply
  | invalidVersion
  | headRequestFailed
  | emptyHeader
  | headerParseFailed
deriving DecidableEq, Repr

/-- Embedding of `recursivelyResolveSkylinkV2`.  `head` is the portal,
mapping a skylink to the HEAD outcome (transport failure or a
`skynet-skylink` header value).  `attemptsLeft` is a `Nat`; the Go guard
`attemptsLeft < 1` becomes the `0` case (the recursion only ever
decrements from the initial `3`). -/
def recursivelyResolveSkylinkV2 (head : SkyId → Except Unit HeaderVal) (s : SkyId) :
    Nat → Except ResolveErr SkyId
  | 0 => .error .nestedTooDeeply
  | attemptsLeft + 1 =>
      if s.version ≠ 2 then .error .invalidVersion
      else
        match head s with
        | .error _ => .error .headRequestFailed
        | .ok .missing => .error .emptyHeader
        | .ok .unparseable => .error .headerParseFailed
        | .ok (.parsed sl) =>
            if sl.version = 2 then recursivelyResolveSkylinkV2 head sl attemptsLeft
            else .ok sl

/-- Embedding of `resolveSkylinkV2`: three levels of nesting. -/
def resolveSkylinkV2 (head : SkyId → Except Unit HeaderVal) (s : SkyId) :
    Except ResolveErr SkyId :=
  recursivelyResolveSkylinkV2 head s 3

/-- Number of HEAD requests `recursivelyResolveSkylinkV2` issues: one per
level while the current skylink is version 2 and attempts remain. -/
def resolveHeadCalls (head : SkyId → Except Unit HeaderVal) (s : SkyId) : Nat → Nat
  | 0 => 0
  | attemptsLeft + 1 =>
      if s.version ≠ 2 then 0
      else
        match head s with
        | .ok (.parsed sl) =>
            if sl.version = 2 then 1 + resolveHeadCalls head sl attemptsLeft else 1
        | _ => 1

/-- The current skylink string, validity of its format, and its parse
result, bundling the inputs of `Skylink.LoadString`: `str` is the raw
identifier, `validHashFormat` is what `accdb.ValidSkylinkHash` answers,
and `parsed` is the result of `skymodules.Skylink.LoadString` on it. -/
structure RawInput where
  str : String
  validHashFormat : Bool
  parsed : Option SkyId
deriving DecidableEq, Repr

/-- The external `crypto.HashObject` of a merkle root, abstracted as an
injective map on the abstract merkle-root values (the real 32-byte hash
is collision-free on the inputs of interest). -/
def cryptoHashObject (merkleRoot : Nat) : Nat := merkleRoot

/-- Errors of `Skylink.LoadString`. -/
inductive LoadErr
  | invalidSkylink
  | unresolvable (e : ResolveErr)
  | invalidSkylinkVersion
deriving DecidableEq, Repr

/-- The two trailing defaults of `LoadString`: the timestamp becomes `now`
only if it was the zero value, and the status becomes `new` only if it was
empty. -/
def applyDefaults (now : Int) (s : Skylink) : Skylink :=
  let s4 := if s.timestamp = 0 then { s with timestamp := now } else s
  if s4.status = "" then { s4 with status := SkylinkStatusNew } else s4

/-- Embedding of `database.Skylink.LoadString` (the two-argument version
with portal resolution), line by line: validate the format, parse, set
`s.Skylink`; the switch computes the hash (for version 2 through
`resolveSkylinkV2`); AFTER the switch the Go unconditionally re-assigns
`s.Hash = crypto.HashObject(sl.MerkleRoot())` from the ORIGINAL parsed
skylink; finally the timestamp defaults to `now` only when zero and the
status defaults to `new` only when empty. -/
def LoadString (head : SkyId → Except Unit HeaderVal) (now : Int)
    (input : RawInput) (s0 : Skylink) : Except LoadErr Skylink :=
  if input.validHashFormat = false then .error .invalidSkylink
  else
    match input.parsed with
    | none => .error .invalidSkylink
    | some sl =>
        let s1 := { s0 with skylink := input.str }
        let afterSwitch : Except LoadErr Skylink :=
          if sl.version = 1 then .ok { s1 with hash := cryptoHashObject sl.merkleRoot }
          else if sl.version = 2 then
            match resolveSkylinkV2 head sl with
            | .error e => .error (.unresolvable e)
            | .ok slv1 => .ok { s1 with hash := cryptoHashObject slv1.merkleRoot }
          else .error .invalidSkylinkVersion
        match afterSwitch with
        | .error e => .error e
        | .ok s2 => .ok (applyDefaults now { s2 with hash := cryptoHashObject sl.merkleRoot })

/-! ## Reporter sweep (scanner/scanner.go, `SweepAndBlock` / `reportToBlocker`) -/

/-- The filter of the reporter sweep as `SweepAndBlock` builds it:
`status = unreported` and `skylink $ne ""`. -/
def unreportedFilter (s : Skylink) : Bool :=
  (s.status == SkylinkStatusUnreported) && !(s.skylink == "")

/-- Modelled from the spec: `DB.FindOneSkylink`, a `FindOne` returning one
document matching the filter (`find_one_unreported` in §4.2); the function
is called by the scanner source but its declaration is not among the
provided database files. -/
def FindOneSkylink (store : List Skylink) (p : Skylink → Bool) : Option Skylink :=
  store.find? p

/-- Modelled from the spec: `DB.UpdateOneSkylink` with filter `_id = i`
and the update `$set skylink := "", status := complete` — the single save
of §4.6 step 3; the function is called by the scanner source but its
declaration is not among the provided database files. -/
def UpdateOneSkylink (store : List Skylink) (i : Nat) : List Skylink :=
  applyFirst (fun s => s.id == i)
    (fun s => { s with skylink := "", status := SkylinkStatusComplete }) store

/-- The JSON body `reportToBlocker` posts to the blocker. -/
structure BlockPOSTBody where
  skylink : String
  reporterName : String
  tags : List String
deriving DecidableEq, Repr

/-- The body built by `reportToBlocker`: the skylink, the fixed reporter
identity `"Malware Scanner"` and the single `malware-scanner` tag. -/
def blockRequestBody (skylink : String) : BlockPOSTBody :=
  { skylink := skylink, reporterName := "Malware Scanner", tags := ["malware-scanner"] }

/-- Outcome of the HTTP POST to the blocker. -/
inductive BlockerResp
  | transportErr
  | status (code : Nat)
deriving DecidableEq, Repr

/-- Embedding of `reportToBlocker`: POST the body; a transport error is an
error, and any response status other than 200 is an error. -/
def reportToBlocker (blocker : BlockPOSTBody → BlockerResp) (skylink : String) :
    Option String :=
  match blocker (blockRequestBody skylink) with
  | .transportErr => some "failed to call blocker"
  | .status code => if code ≠ 200 then some "blocker failed" else none

/-- Result of a reporter sweep: the count blocked, or the count so far
plus the error; `fuelExhausted` is an artefact of the fuelled embedding
and is proven unreachable for stores with unique ids. -/
inductive SweepBlockResult
  | done (count : Nat)
  | fail (count : Nat) (e : String)
  | fuelExhausted
deriving DecidableEq, Repr

/-- The inner drain loop of `SweepAndBlock`: find one unreported record,
post it to the blocker; on success clear its skylink and complete its
status in one update and continue, on failure stop with the count so far
and the error.  The Go loop is unbounded; the `Nat` fuel makes the
recursion structural, and `sweepAndBlock_spec` shows the fuel chosen by
`SweepAndBlock` is never exhausted when ids are unique. -/
def sweepAndBlockAux (blocker : BlockPOSTBody → BlockerResp) :
    Nat → Nat → List Skylink → List Skylink × SweepBlockResult
  | 0, _, store => (store, .fuelExhausted)
  | fuel + 1, count, store =>
      match FindOneSkylink store unreportedFilter with
      | none => (store, .done count)
      | some sl =>
          match reportToBlocker blocker sl.skylink with
          | some e => (store, .fail count e)
          | none => sweepAndBlockAux blocker fuel (count + 1) (UpdateOneSkylink store sl.id)

/-- Embedding of `Scanner.SweepAndBlock`: drain the unreported records.
One unit of fuel per unreported record plus one for the final empty
find. -/
def SweepAndBlock (blocker : BlockPOSTBody → BlockerResp) (store : List Skylink) :
    List Skylink × SweepBlockResult :=
  sweepAndBlockAux blocker (store.countP unreportedFilter + 1) 0 store

/-! ## Concrete fixtures used by the theorems below -/

/-- A scan that has been stuck in `scanning` for two hours. -/
def stuckItem : Skylink :=
  { id := 1, hash := 10, skylink := "AAA", status := "scanning", infected := false,
    infectionDescription := "", scannedAllContent := false, scannedAllOffsets := false,
    size := 0, timestamp := 2800 }

/-- A scan that started only ten seconds ago. -/
def freshItem : Skylink :=
  { stuckItem with id := 2, timestamp := 9990 }

/-- An enqueued item waiting in status `new`. -/
def newItem : Skylink :=
  { id := 3, hash := 30, skylink := "BBB", status := "new", infected := false,
    infectionDescription := "", scannedAllContent := false, scannedAllOffsets := false,
    size := 0, timestamp := 100 }

/-- The record a successful scan saves, as `SweepAndScan` builds it. -/
def verdictRecord (now : Int) (sl : Skylink) (v : ScanVerdict) : Skylink :=
  { sl with
    status := if v.infected then SkylinkStatusUnreported else SkylinkStatusComplete,
    skylink := if v.infected then sl.skylink else "",
    infected := v.infected,
    infectionDescription := v.description,
    size := v.size,
    scannedAllContent := v.scannedSize == v.size,
    scannedAllOffsets := false,
    timestamp := now }

/-- A record freshly claimed for scanning. -/
def claimedItem : Skylink :=
  { id := 7, hash := 42, skylink := "SK", status := "scanning", infected := false,
    infectionDescription := "", scannedAllContent := false, scannedAllOffsets := false,
    size := 3, timestamp := 111 }

/-- An infected verdict. -/
def infectedVerdict : ScanVerdict :=
  { infected := true, description := "EICAR", size := 4, scannedSize := 4 }

/-- A scanner oracle that reports `infectedVerdict` for every skylink. -/
def infectedScanOracle : String → Except String ScanVerdict := fun _ => .ok infectedVerdict

/-- A scanner oracle that fails every call. -/
def failingScanOracle : String → Except String ScanVerdict :=
  fun _ => .error "connection reset"

/-- The record built from a freshly submitted identifier. -/
def postedItem : Skylink :=
  { id := 0, hash := 77, skylink := "CC", status := "new", infected := false,
    infectionDescription := "", scannedAllContent := false, scannedAllOffsets := false,
    size := 0, timestamp := 5 }

/-- A portal on which every HEAD answers with another version-2 skylink. -/
def cyclicHead : SkyId → Except Unit HeaderVal := fun _ => .ok (.parsed ⟨2, 0⟩)

/-- A version-2 identifier. -/
def v2Id : SkyId := ⟨2, 0⟩

/-- A portal on which every HEAD resolves to the version-1 skylink with
merkle root `200`. -/
def headToV1 : SkyId → Except Unit HeaderVal := fun _ => .ok (.parsed ⟨1, 200⟩)

/-- A version-2 identifier string whose own merkle root is `100`. -/
def v2Input : RawInput := { str := "V2STR", validHashFormat := true, parsed := some ⟨2, 100⟩ }

/-- The version-1 identifier string with merkle root `200`, the one
`headToV1` resolves to. -/
def v1Input : RawInput := { str := "V1STR", validHashFormat := true, parsed := some ⟨1, 200⟩ }

/-- A zero-valued record, as Go allocates it before `LoadString`. -/
def blankSkylink : Skylink :=
  { id := 0, hash := 0, skylink := "", status := "", infected := false,
    infectionDescription := "", scannedAllContent := false, scannedAllOffsets := false,
    size := 0, timestamp := 0 }

/-- A record already tracked by the queue: non-zero timestamp, non-empty
status. -/
def trackedItem : Skylink := { blankSkylink with timestamp := 7, status := "scanning" }

/-- The record stored after loading `v2Input` on `headToV1`. -/
def v2Loaded : Skylink :=
  { blankSkylink with
    skylink := "V2STR"
    hash := cryptoHashObject 100
    timestamp := 50
    status := SkylinkStatusNew }

/-- The record stored after loading `v1Input` on `headToV1`. -/
def v1Loaded : Skylink :=
  { blankSkylink with
    skylink := "V1STR"
    hash := cryptoHashObject 200
    timestamp := 50
    status := SkylinkStatusNew }

/-- What re-loading `v1Input` over `trackedItem` produces. -/
def trackedLoaded : Skylink := { trackedItem with skylink := "V1STR", hash := 200 }

/-- An infected record awaiting its report to the blocker. -/
def unreportedItem : Skylink :=
  { id := 11, hash := 1, skylink := "BAD", status := "unreported", infected := true,
    infectionDescription := "X", scannedAllContent := true, scannedAllOffsets := false,
    size := 9, timestamp := 4 }

/-- A blocker that accepts every report with status 200. -/
def okBlocker : BlockPOSTBody → BlockerResp := fun _ => .status 200

end ScannerQueue

namespace ScannerQueue

/-! ## Theorems for claims C1, C2, C3 -/





/-- C1: `CancelStuckScans` is meant to reset exactly the `scanning` items
whose timestamp is OLDER than `now - CancelScanAfter`.  The Go filter uses
`$gt`, so at `now = 10000` it leaves a two-hour-old stuck scan
(`timestamp = 2800 < 6400`) untouched and reports `0` resets, while it
DOES reset a scan that started ten seconds ago — the exact opposite of the
claim, of the code's own doc comment, and of the spec's post-condition
that no overdue `scanning` item remains. -/
theorem cancelStuckScans_resets_recent_not_stuck :
    CancelStuckScans 10000 [stuckItem] = ([stuckItem], 0) ∧
    stuckItem.status = SkylinkStatusScanning ∧
    stuckItem.timestamp < 10000 - CancelScanAfter ∧
    CancelStuckScans 10000 [freshItem] =
      ([{ freshItem with timestamp := 10000, status := SkylinkStatusNew }], 1) := by
  refine ⟨rfl, rfl, by decide, rfl⟩



/-- On a plain `UpdateOne` the upserted count is always zero. -/
theorem updateOne_upsertedCount (p : Skylink → Bool) (f : Skylink → Skylink)
    (store : List Skylink) : (updateOne p f store).upsertedCount = 0 := by
  unfold updateOne
  cases store.find? p <;> rfl

/-- C2: `SweepAndLock` checks `UpsertedCount` of a non-upsert `UpdateOne`,
which is always zero, so for EVERY store state it returns
`ErrNoDocumentsFound` — even when an item with `status = new` exists; the
matched item is still flipped to `scanning` but is never returned, so the
claim that the call succeeds and returns the locked item fails. -/
theorem sweepAndLock_always_empty :
    (∀ (now : Int) (store : List Skylink),
        (SweepAndLock now store).snd = .error .noDocumentsFound) ∧
    (SweepAndLock 500 [newItem]).fst =
      [{ newItem with timestamp := 500, status := SkylinkStatusScanning }] := by
  constructor
  · intro now store
    unfold SweepAndLock
    simp [updateOne_upsertedCount]
  · rfl

/-- C3: the backoff never escalates.  `numSubsequentErrs` is re-declared
as `0` at the top of every loop iteration, so after EVERY error the loop
sets `sleepLength = 100 ms × 10^0 = 100 ms`: four consecutive errors
produce sleeps `[100, 100, 100, 100]` ms instead of the claimed
`[100, 1000, 10000, 100000]` ms, contradicting the code's own comment
("from 100ms on the first error to 100s on the fourth"). -/
theorem scanLoop_error_backoff_constant :
    (∀ s : Nat, scanLoopIter s .err = (100, 1)) ∧
    scanLoopSleeps sleepBetweenScans [.err, .err, .err, .err] = [100, 100, 100, 100] := by
  exact ⟨fun s => rfl, rfl⟩

/-! ## Theorems for claims C4, C5, C8 -/



/-- On a claimed record with a non-empty skylink and a successful scan,
the record passed to `SkylinkSave` is `verdictRecord`. -/
theorem sweepAndScan_ok_saved (now : Int) (sl : Skylink)
    (scan : String → Except String ScanVerdict) (saveOk : Bool) (v : ScanVerdict)
    (hsl : sl.skylink ≠ "") (hscan : scan sl.skylink = .ok v) :
    (SweepAndScan now (.ok sl) scan saveOk).fst = some (verdictRecord now sl v) := by
  simp only [SweepAndScan, verdictRecord, if_neg hsl, hscan]

/-- C4: for every successful scan verdict, the record `SweepAndScan` saves
has `status = unreported` with the skylink retained when `infected`, and
`status = complete` with the skylink cleared when clean; moreover, on ANY
path of `SweepAndScan`, a saved record with `status = unreported` has
`infected = true`. -/
theorem sweepAndScan_verdict_persistence (now : Int) (sl : Skylink)
    (scan : String → Except String ScanVerdict) (saveOk : Bool) (v : ScanVerdict)
    (hsl : sl.skylink ≠ "") (hscan : scan sl.skylink = .ok v) :
    (∃ sl2, (SweepAndScan now (.ok sl) scan saveOk).fst = some sl2 ∧
        sl2.infected = v.infected ∧
        (v.infected = true → sl2.status = SkylinkStatusUnreported ∧ sl2.skylink = sl.skylink) ∧
        (v.infected = false → sl2.status = SkylinkStatusComplete ∧ sl2.skylink = "")) ∧
    (∀ (lockRes : Except SweepErr Skylink) (scan2 : String → Except String ScanVerdict)
        (so : Bool) (x : Skylink),
        (SweepAndScan now lockRes scan2 so).fst = some x →
        x.status = SkylinkStatusUnreported → x.infected = true) := by
  constructor
  · refine ⟨verdictRecord now sl v, sweepAndScan_ok_saved now sl scan saveOk v hsl hscan,
      rfl, ?_, ?_⟩
    · intro h
      simp [verdictRecord, h]
    · intro h
      simp [verdictRecord, h]
  · intro lockRes scan2 so x hx hstatus
    match lockRes with
    | .error e => simp [SweepAndScan] at hx
    | .ok t =>
      by_cases ht : t.skylink = ""
      · simp [SweepAndScan, ht] at hx
      · simp only [SweepAndScan, if_neg ht] at hx
        cases hscan2 : scan2 t.skylink with
        | error e =>
            rw [hscan2] at hx
            simp at hx
            rw [← hx] at hstatus
            exact absurd hstatus (by simp [SkylinkStatusNew, SkylinkStatusUnreported])
        | ok w =>
            rw [hscan2] at hx
            simp at hx
            cases hw : w.infected with
            | true => rw [← hx]; simp [hw]
            | false =>
                rw [← hx] at hstatus
                simp [hw] at hstatus
                exact absurd hstatus (by simp [SkylinkStatusComplete, SkylinkStatusUnreported])







/-- Witness for `sweepAndScan_verdict_persistence` at a concrete record
and verdict. -/
theorem sweepAndScan_verdict_persistence_witness :
    (∃ sl2, (SweepAndScan 999 (.ok claimedItem) infectedScanOracle true).fst = some sl2 ∧
        sl2.infected = infectedVerdict.infected ∧
        (infectedVerdict.infected = true →
          sl2.status = SkylinkStatusUnreported ∧ sl2.skylink = claimedItem.skylink) ∧
        (infectedVerdict.infected = false →
          sl2.status = SkylinkStatusComplete ∧ sl2.skylink = "")) ∧
    (∀ (lockRes : Except SweepErr Skylink) (scan2 : String → Except String ScanVerdict)
        (so : Bool) (x : Skylink),
        (SweepAndScan 999 lockRes scan2 so).fst = some x →
        x.status = SkylinkStatusUnreported → x.infected = true) :=
  sweepAndScan_verdict_persistence 999 claimedItem infectedScanOracle true infectedVerdict
    (by decide) rfl



/-- C8 counterexample: when the scanner call fails but the unlock-save
succeeds, `SweepAndScan` returns NO error — the scanner error is dropped
by the `err = s.staticDB.SkylinkSave(...)` re-assignment — while the claim
demands that the error be returned.  The frame part (only `status` and
`timestamp` change) does hold at this input. -/
theorem sweepAndScan_scanError_returns_nil :
    (SweepAndScan 999 (.ok claimedItem) failingScanOracle true).snd = none ∧
    (SweepAndScan 999 (.ok claimedItem) failingScanOracle true).fst =
      some { claimedItem with status := SkylinkStatusNew, timestamp := 999 } :=
  ⟨rfl, rfl⟩

/-- C8 amended: on a scanner failure, `SweepAndScan` saves the claimed
record with `status = new` and `timestamp = now` and every other field
unchanged, and returns the result of the SAVE — no error when the save
succeeds, a save error otherwise; the scanner error itself is only
logged. -/
theorem sweepAndScan_scanError_frame (now : Int) (sl : Skylink)
    (scan : String → Except String ScanVerdict) (saveOk : Bool) (e : String)
    (hsl : sl.skylink ≠ "") (hscan : scan sl.skylink = .error e) :
    (SweepAndScan now (.ok sl) scan saveOk).fst =
      some { sl with status := SkylinkStatusNew, timestamp := now } ∧
    (SweepAndScan now (.ok sl) scan saveOk).snd =
      (if saveOk then none else some SweepErr.saveFailed) := by
  simp only [SweepAndScan, if_neg hsl, hscan]
  constructor <;> trivial

/-- Witness for `sweepAndScan_scanError_frame` with a failing save. -/
theorem sweepAndScan_scanError_frame_witness :
    (SweepAndScan 999 (.ok claimedItem) failingScanOracle false).fst =
      some { claimedItem with status := SkylinkStatusNew, timestamp := 999 } ∧
    (SweepAndScan 999 (.ok claimedItem) failingScanOracle false).snd =
      (if false then none else some SweepErr.saveFailed) :=
  sweepAndScan_scanError_frame 999 claimedItem failingScanOracle false "connection reset"
    (by decide) rfl



/-- C5: POSTing the same identifier twice.  The first call answers 200 and
stores one record; the second call hits the `FindOne` duplicate check in
`SkylinkCreate`, which returns the error `"skylink already exists"`, so
the handler answers 500 — not the claimed 200 — although the store does
still contain exactly one record for the hash.  This contradicts the
function's own doc comment ("If the skylink already exists it does
nothing"). -/
theorem scanPOST_duplicate_returns_500 :
    ScanPOST (.ok postedItem) [] = ([postedItem], 200) ∧
    ScanPOST (.ok postedItem) [postedItem] = ([postedItem], 500) ∧
    SkylinkCreate [postedItem] postedItem =
      ([postedItem], some "skylink already exists") :=
  ⟨rfl, rfl, rfl⟩

/-! ## Theorems for claims C6, C7, C10 -/

/-- The resolver issues at most `attemptsLeft` HEAD requests. -/
theorem resolveHeadCalls_le (head : SkyId → Except Unit HeaderVal) :
    ∀ (n : Nat) (s : SkyId), resolveHeadCalls head s n ≤ n := by
  intro n
  induction n with
  | zero => intro s; simp [resolveHeadCalls]
  | succ m ih =>
      intro s
      by_cases hv : s.version ≠ 2
      · unfold resolveHeadCalls; rw [if_pos hv]; exact Nat.zero_le _
      · unfold resolveHeadCalls; rw [if_neg hv]
        cases hh : head s with
        | error e => simp
        | ok h =>
            cases h with
            | missing => simp
            | unparseable => simp
            | parsed sl =>
                simp only
                by_cases h2 : sl.version = 2
                · rw [if_pos h2]
                  have := ih sl
                  omega
                · rw [if_neg h2]
                  omega

/-- On a portal whose every response is again a version-2 skylink, the
resolver always runs out of attempts. -/
theorem resolve_all_v2_nested (head : SkyId → Except Unit HeaderVal)
    (hall : ∀ t, ∃ u, head t = .ok (.parsed u) ∧ u.version = 2) :
    ∀ (n : Nat) (s : SkyId), s.version = 2 →
      recursivelyResolveSkylinkV2 head s n = .error .nestedTooDeeply := by
  intro n
  induction n with
  | zero => intro s hs; rfl
  | succ m ih =>
      intro s hs
      obtain ⟨u, hu, hu2⟩ := hall s
      unfold recursivelyResolveSkylinkV2
      rw [if_neg (not_not_intro hs), hu]
      simp only
      rw [if_pos hu2]
      exact ih u hu2

/-- C6: starting from a version-2 identifier with 3 attempts, the resolver
makes at most 3 HEAD requests (and, being a total function, terminates);
when every portal response is again a version-2 skylink it fails with the
nested-too-deeply error, and when the `skynet-skylink` header is missing it
fails with the empty-header error. -/
theorem resolveSkylinkV2_depth_properties (head : SkyId → Except Unit HeaderVal)
    (s : SkyId) (hs : s.version = 2) :
    resolveHeadCalls head s 3 ≤ 3 ∧
    ((∀ t, ∃ u, head t = .ok (.parsed u) ∧ u.version = 2) →
        resolveSkylinkV2 head s = .error .nestedTooDeeply) ∧
    (head s = .ok .missing → resolveSkylinkV2 head s = .error .emptyHeader) := by
  refine ⟨resolveHeadCalls_le head 3 s,
    fun hall => resolve_all_v2_nested head hall 3 s hs, fun hm => ?_⟩
  unfold resolveSkylinkV2 recursivelyResolveSkylinkV2
  rw [if_neg (not_not_intro hs), hm]

/-- Witness for `resolveSkylinkV2_depth_properties` on the cyclic portal. -/
theorem resolveSkylinkV2_depth_properties_witness :
    resolveHeadCalls cyclicHead v2Id 3 ≤ 3 ∧
    ((∀ t, ∃ u, cyclicHead t = .ok (.parsed u) ∧ u.version = 2) →
        resolveSkylinkV2 cyclicHead v2Id = .error .nestedTooDeeply) ∧
    (cyclicHead v2Id = .ok .missing →
        resolveSkylinkV2 cyclicHead v2Id = .error .emptyHeader) :=
  resolveSkylinkV2_depth_properties cyclicHead v2Id rfl

/-- C7: loading the version-2 identifier whose own merkle root is `100`
on a portal that resolves it to the version-1 skylink with merkle root
`200` stores `hash = cryptoHashObject 100` — the hash of the v2
identifier's OWN merkle root — while loading the version-1 identifier
directly stores `cryptoHashObject 200`: the final
`s.Hash = crypto.HashObject(sl.MerkleRoot())` after the switch overwrites
the resolved hash, so the two stored hashes differ although the repo's own
`TestSkylink_LoadString` expects them to be equal. -/
theorem loadString_v2_stores_v2_hash :
    resolveSkylinkV2 headToV1 ⟨2, 100⟩ = .ok ⟨1, 200⟩ ∧
    LoadString headToV1 50 v2Input blankSkylink = .ok v2Loaded ∧
    LoadString headToV1 50 v1Input blankSkylink = .ok v1Loaded ∧
    v2Loaded.hash = cryptoHashObject 100 ∧
    v1Loaded.hash = cryptoHashObject 200 ∧
    cryptoHashObject 100 ≠ cryptoHashObject 200 :=
  ⟨rfl, rfl, rfl, rfl, rfl, by decide⟩

/-- Every successful `LoadString` produces `applyDefaults now s3` for a
record `s3` that still carries the input record's timestamp and status. -/
theorem loadString_ok_shape (head : SkyId → Except Unit HeaderVal) (now : Int)
    (input : RawInput) (s0 s1 : Skylink)
    (h : LoadString head now input s0 = .ok s1) :
    ∃ s3 : Skylink, s1 = applyDefaults now s3 ∧
      s3.timestamp = s0.timestamp ∧ s3.status = s0.status := by
  obtain ⟨istr, ivalid, iparsed⟩ := input
  cases ivalid with
  | false => simp [LoadString] at h
  | true =>
      cases iparsed with
      | none => simp [LoadString] at h
      | some sl =>
          simp only [LoadString] at h
          by_cases h1 : sl.version = 1
          · rw [if_pos h1] at h
            simp only at h
            exact ⟨_, ((Except.ok.inj h)).symm, rfl, rfl⟩
          · rw [if_neg h1] at h
            by_cases h2 : sl.version = 2
            · rw [if_pos h2] at h
              cases hr : resolveSkylinkV2 head sl with
              | error e => rw [hr] at h; simp at h
              | ok slv1 =>
                  rw [hr] at h
                  simp only at h
                  exact ⟨_, ((Except.ok.inj h)).symm, rfl, rfl⟩
            · rw [if_neg h2] at h
              simp at h

/-- The timestamp and status after `applyDefaults`. -/
theorem applyDefaults_spec (now : Int) (s : Skylink) :
    ((applyDefaults now s).timestamp = if s.timestamp = 0 then now else s.timestamp) ∧
    ((applyDefaults now s).status = if s.status = "" then SkylinkStatusNew else s.status) := by
  unfold applyDefaults
  by_cases ht : s.timestamp = 0 <;> by_cases hs : s.status = "" <;> simp [ht, hs]

/-- C10: a successful `LoadString` over a record with a non-zero timestamp
and a non-empty status leaves both unchanged; it sets the timestamp to
`now` only when it was zero, and the status to `new` only when it was
empty — so re-loading an already-tracked identifier never resets its queue
state. -/
theorem loadString_preserves_queue_state (head : SkyId → Except Unit HeaderVal)
    (now : Int) (input : RawInput) (s0 s1 : Skylink)
    (h : LoadString head now input s0 = .ok s1) :
    (s0.timestamp ≠ 0 → s1.timestamp = s0.timestamp) ∧
    (s0.timestamp = 0 → s1.timestamp = now) ∧
    (s0.status ≠ "" → s1.status = s0.status) ∧
    (s0.status = "" → s1.status = SkylinkStatusNew) := by
  obtain ⟨s3, rfl, ht, hs⟩ := loadString_ok_shape head now input s0 s1 h
  have hsp := applyDefaults_spec now s3
  refine ⟨fun h0 => ?_, fun h0 => ?_, fun h0 => ?_, fun h0 => ?_⟩
  · rw [hsp.1, ht, if_neg h0]
  · rw [hsp.1, ht, if_pos h0]
  · rw [hsp.2, hs, if_neg h0]
  · rw [hsp.2, hs, if_pos h0]

/-- Witness for `loadString_preserves_queue_state`: re-loading over a
tracked record with timestamp `7` and status `scanning`. -/
theorem loadString_preserves_queue_state_witness :
    (trackedItem.timestamp ≠ 0 → trackedLoaded.timestamp = trackedItem.timestamp) ∧
    (trackedItem.timestamp = 0 → trackedLoaded.timestamp = 50) ∧
    (trackedItem.status ≠ "" → trackedLoaded.status = trackedItem.status) ∧
    (trackedItem.status = "" → trackedLoaded.status = SkylinkStatusNew) :=
  loadString_preserves_queue_state headToV1 50 v1Input trackedItem trackedLoaded rfl

/-! ## Theorems for claim C9 -/

/-- A successful `find?` splits the list at the first match. -/
theorem find?_decomp {p : Skylink → Bool} :
    ∀ {l : List Skylink} {a : Skylink}, l.find? p = some a →
      ∃ l1 l2, l = l1 ++ a :: l2 ∧ ∀ y ∈ l1, p y = false := by
  intro l
  induction l with
  | nil => intro a h; simp at h
  | cons s rest ih =>
      intro a h
      by_cases hp : p s = true
      · rw [List.find?_cons_of_pos _ hp] at h
        obtain rfl : s = a := Option.some.inj h
        exact ⟨[], rest, rfl, by intro y hy; simp at hy⟩
      · rw [List.find?_cons_of_neg _ (by simpa using hp)] at h
        obtain ⟨l1, l2, hrest, hl1⟩ := ih h
        refine ⟨s :: l1, l2, by rw [hrest]; rfl, ?_⟩
        intro y hy
        rcases List.mem_cons.mp hy with rfl | hy2
        · simpa using hp
        · exact hl1 y hy2

/-- Updating the first match of `p` when the list is split at it. -/
theorem applyFirst_append (p : Skylink → Bool) (f : Skylink → Skylink) :
    ∀ (l1 : List Skylink) (a : Skylink) (l2 : List Skylink),
      (∀ y ∈ l1, p y = false) → p a = true →
      applyFirst p f (l1 ++ a :: l2) = l1 ++ f a :: l2 := by
  intro l1
  induction l1 with
  | nil => intro a l2 _ hpa; simp [applyFirst, hpa]
  | cons s rest ih =>
      intro a l2 hl1 hpa
      have hps : p s = false := hl1 s (List.mem_cons_self s rest)
      have hrec := ih a l2 (fun y hy => hl1 y (List.mem_cons_of_mem s hy)) hpa
      simp [applyFirst, hps, hrec]

/-- After the reporter's update a record no longer matches the sweep
filter: its skylink is empty. -/
theorem unreportedFilter_updated (t : Skylink) :
    unreportedFilter { t with skylink := "", status := SkylinkStatusComplete } = false := rfl

/-- With unique ids, `UpdateOneSkylink` at the id of the matched record
rewrites exactly that record. -/
theorem updateOneSkylink_middle (sl : Skylink) (l1 l2 : List Skylink)
    (hnd : ((l1 ++ sl :: l2).map Skylink.id).Nodup) :
    UpdateOneSkylink (l1 ++ sl :: l2) sl.id =
      l1 ++ { sl with skylink := "", status := SkylinkStatusComplete } :: l2 := by
  have hid : sl.id ∉ l1.map Skylink.id := by
    rw [List.map_append, List.map_cons] at hnd
    have h2 := List.nodup_middle.mp hnd
    have h3 := (List.nodup_cons.mp h2).1
    intro hmem
    exact h3 (List.mem_append.mpr (Or.inl hmem))
  unfold UpdateOneSkylink
  apply applyFirst_append
  · intro y hy
    have hne : y.id ≠ sl.id := by
      intro he
      exact hid (he ▸ List.mem_map_of_mem Skylink.id hy)
    simpa using hne
  · simp

/-- Induction behind `sweepAndBlock_spec`: with unique ids and enough
fuel, the drain loop never exhausts its fuel, only rewrites
successfully-posted unreported records (each by the single reporter
update), counts exactly the records it completes, and on a blocker
failure stops with the failing record still present unchanged. -/
theorem sweepAndBlockAux_spec (blocker : BlockPOSTBody → BlockerResp) :
    ∀ (fuel : Nat) (store : List Skylink) (count : Nat),
      (store.map Skylink.id).Nodup →
      store.countP unreportedFilter < fuel →
      (sweepAndBlockAux blocker fuel count store).snd ≠ .fuelExhausted ∧
      (∀ x ∈ (sweepAndBlockAux blocker fuel count store).fst,
          x ∈ store ∨
          ∃ t, t ∈ store ∧ unreportedFilter t = true ∧
            reportToBlocker blocker t.skylink = none ∧
            x = { t with skylink := "", status := SkylinkStatusComplete }) ∧
      (∀ c, (sweepAndBlockAux blocker fuel count store).snd = .done c →
          c = count + store.countP unreportedFilter ∧
          (sweepAndBlockAux blocker fuel count store).fst.countP unreportedFilter = 0) ∧
      (∀ c e, (sweepAndBlockAux blocker fuel count store).snd = .fail c e →
          c + (sweepAndBlockAux blocker fuel count store).fst.countP unreportedFilter =
            count + store.countP unreportedFilter ∧
          ∃ t, t ∈ store ∧
            FindOneSkylink (sweepAndBlockAux blocker fuel count store).fst
              unreportedFilter = some t ∧
            reportToBlocker blocker t.skylink = some e) := by
  intro fuel
  induction fuel with
  | zero => intro store count _ hfuel; exact absurd hfuel (Nat.not_lt_zero _)
  | succ m ih =>
      intro store count hnd hfuel
      cases hfind : FindOneSkylink store unreportedFilter with
      | none =>
          have hres : sweepAndBlockAux blocker (m + 1) count store = (store, .done count) := by
            simp only [sweepAndBlockAux, hfind]
          have hcount0 : store.countP unreportedFilter = 0 := by
            rw [List.countP_eq_zero]
            intro a ha
            have := List.find?_eq_none.mp hfind a ha
            simpa using this
          rw [hres]
          refine ⟨by simp, fun x hx => Or.inl hx, ?_, ?_⟩
          · intro c hc
            simp only at hc
            injection hc with h1
            subst h1
            exact ⟨by omega, hcount0⟩
          · intro c e hc
            simp at hc
      | some sl =>
          have hpsl : unreportedFilter sl = true := List.find?_some hfind
          obtain ⟨l1, l2, hsplit, hl1⟩ := find?_decomp hfind
          subst hsplit
          have hmem : sl ∈ l1 ++ sl :: l2 :=
            List.mem_append.mpr (Or.inr (List.mem_cons_self _ _))
          cases hrep : reportToBlocker blocker sl.skylink with
          | some e0 =>
              have hres : sweepAndBlockAux blocker (m + 1) count (l1 ++ sl :: l2) =
                  (l1 ++ sl :: l2, .fail count e0) := by
                simp only [sweepAndBlockAux, hfind, hrep]
              rw [hres]
              refine ⟨by simp, fun x hx => Or.inl hx, ?_, ?_⟩
              · intro c hc
                simp at hc
              · intro c e hc
                simp only at hc
                injection hc with h1 h2
                subst h1
                subst h2
                exact ⟨rfl, sl, hmem, hfind, hrep⟩
          | none =>
              have hres : sweepAndBlockAux blocker (m + 1) count (l1 ++ sl :: l2) =
                  sweepAndBlockAux blocker m (count + 1)
                    (UpdateOneSkylink (l1 ++ sl :: l2) sl.id) := by
                simp only [sweepAndBlockAux, hfind, hrep]
              have hupd := updateOneSkylink_middle sl l1 l2 hnd
              have hnd2 : ((l1 ++
                  { sl with skylink := "", status := SkylinkStatusComplete } :: l2).map
                    Skylink.id).Nodup := by
                simpa using hnd
              have hz : l1.countP unreportedFilter = 0 :=
                List.countP_eq_zero.mpr (by intro a ha; simp [hl1 a ha])
              have hc1 : (l1 ++ sl :: l2).countP unreportedFilter =
                  (l1 ++ { sl with skylink := "", status := SkylinkStatusComplete } :: l2).countP
                    unreportedFilter + 1 := by
                simp [List.countP_append, List.countP_cons, hz, hpsl, unreportedFilter_updated]
              have hfuel2 : (l1 ++
                  { sl with skylink := "", status := SkylinkStatusComplete } :: l2).countP
                    unreportedFilter < m := by omega
              have IH := ih (l1 ++ { sl with skylink := "", status := SkylinkStatusComplete } :: l2)
                (count + 1) hnd2 hfuel2
              rw [hres, hupd]
              refine ⟨IH.1, ?_, ?_, ?_⟩
              · intro x hx
                rcases IH.2.1 x hx with hx2 | ⟨t, ht2, htp, htr, hxeq⟩
                · rcases List.mem_append.mp hx2 with h | h
                  · exact Or.inl (List.mem_append.mpr (Or.inl h))
                  · rcases List.mem_cons.mp h with rfl | h2
                    · exact Or.inr ⟨sl, hmem, hpsl, hrep, rfl⟩
                    · exact Or.inl (List.mem_append.mpr (Or.inr (List.mem_cons_of_mem _ h2)))
                · have ht3 : t ∈ l1 ++ sl :: l2 := by
                    rcases List.mem_append.mp ht2 with h | h
                    · exact List.mem_append.mpr (Or.inl h)
                    · rcases List.mem_cons.mp h with rfl | h2
                      · rw [unreportedFilter_updated] at htp
                        exact absurd htp (by simp)
                      · exact List.mem_append.mpr (Or.inr (List.mem_cons_of_mem _ h2))
                  exact Or.inr ⟨t, ht3, htp, htr, hxeq⟩
              · intro c hc
                obtain ⟨h1, h2⟩ := IH.2.2.1 c hc
                exact ⟨by omega, h2⟩
              · intro c e hc
                obtain ⟨h1, t, ht, htf, htr⟩ := IH.2.2.2 c e hc
                have htp : unreportedFilter t = true := List.find?_some htf
                have ht3 : t ∈ l1 ++ sl :: l2 := by
                  rcases List.mem_append.mp ht with h | h
                  · exact List.mem_append.mpr (Or.inl h)
                  · rcases List.mem_cons.mp h with rfl | h2
                    · rw [unreportedFilter_updated] at htp
                      exact absurd htp (by simp)
                    · exact List.mem_append.mpr (Or.inr (List.mem_cons_of_mem _ h2))
                exact ⟨by omega, t, ht3, htf, htr⟩

/-- C9: a reporter sweep over a store with unique ids (a) never exhausts
the fuel of the embedding (it drains and stops), (b) changes only
successfully-posted unreported records, each rewritten by the single
update clearing `skylink` and completing `status`, (c) when it finishes
with `done c`, `c` counts exactly the unreported records and none remain,
and (d) on the first blocker transport error or non-200 status it stops,
returning the count of records blocked so far together with the error,
and the failing record is still found in the store unchanged (it is an
original record of the store). -/
theorem sweepAndBlock_spec (blocker : BlockPOSTBody → BlockerResp)
    (store : List Skylink) (hnd : (store.map Skylink.id).Nodup) :
    (SweepAndBlock blocker store).snd ≠ .fuelExhausted ∧
    (∀ x ∈ (SweepAndBlock blocker store).fst,
        x ∈ store ∨
        ∃ t, t ∈ store ∧ unreportedFilter t = true ∧
          reportToBlocker blocker t.skylink = none ∧
          x = { t with skylink := "", status := SkylinkStatusComplete }) ∧
    (∀ c, (SweepAndBlock blocker store).snd = .done c →
        c = store.countP unreportedFilter ∧
        (SweepAndBlock blocker store).fst.countP unreportedFilter = 0) ∧
    (∀ c e, (SweepAndBlock blocker store).snd = .fail c e →
        c + (SweepAndBlock blocker store).fst.countP unreportedFilter =
          store.countP unreportedFilter ∧
        ∃ t, t ∈ store ∧
          FindOneSkylink (SweepAndBlock blocker store).fst unreportedFilter = some t ∧
          reportToBlocker blocker t.skylink = some e) := by
  have h := sweepAndBlockAux_spec blocker (store.countP unreportedFilter + 1) store 0 hnd
    (Nat.lt_succ_self _)
  simpa [SweepAndBlock] using h

/-- Witness for `sweepAndBlock_spec`: one unreported record and a blocker
answering 200. -/
theorem sweepAndBlock_spec_witness :
    (SweepAndBlock okBlocker [unreportedItem]).snd ≠ .fuelExhausted ∧
    (∀ x ∈ (SweepAndBlock okBlocker [unreportedItem]).fst,
        x ∈ [unreportedItem] ∨
        ∃ t, t ∈ [unreportedItem] ∧ unreportedFilter t = true ∧
          reportToBlocker okBlocker t.skylink = none ∧
          x = { t with skylink := "", status := SkylinkStatusComplete }) ∧
    (∀ c, (SweepAndBlock okBlocker [unreportedItem]).snd = .done c →
        c = [unreportedItem].countP unreportedFilter ∧
        (SweepAndBlock okBlocker [unreportedItem]).fst.countP unreportedFilter = 0) ∧
    (∀ c e, (SweepAndBlock okBlocker [unreportedItem]).snd = .fail c e →
        c + (SweepAndBlock okBlocker [unreportedItem]).fst.countP unreportedFilter =
          [unreportedItem].countP unreportedFilter ∧
        ∃ t, t ∈ [unreportedItem] ∧
          FindOneSkylink (SweepAndBlock okBlocker [unreportedItem]).fst
            unreportedFilter = some t ∧
          reportToBlocker okBlocker t.skylink = some e) :=
  sweepAndBlock_spec okBlocker [unreportedItem] (by decide)

end ScannerQueue
